import Mathlib

/-!
Shallow embedding of `airflow/providers/amazon/aws/operators/s3_to_redshift.py`
(class `S3ToRedshiftTransfer`): the constructor `__init__`, the statement
builder `_copy_data`, and the entry point `execute`.

External collaborators (the credential hooks' `get_credentials` and the
postgres hook's `run`) are modelled as function parameters; everything the
operator itself does is translated from the source.
-/

/-- The access/secret pair returned by a credential hook's `get_credentials`. -/
structure Credentials where
  access_key : String
  secret_key : String
deriving Repr, DecidableEq

/-- Errors surfaced by `execute`: `airflow m` is an `AirflowException`
raised by the operator's own code with message `m`; `warehouse e` is a
driver-side failure raised inside `self._postgres_hook.run` and propagated
unmodified (the operator wraps no handler around the call). -/
inductive RunError where
  | airflow (msg : String)
  | warehouse (payload : String)
deriving Repr, DecidableEq

/-- Observable effects of one `execute` call: the statements submitted to
`self._postgres_hook.run` together with the autocommit flag, and the
`self.log.info` messages emitted. -/
structure Trace where
  hookRuns : List (String × Bool)
  logs : List String
deriving Repr, DecidableEq

/-- Python `str()` of an `Optional[str]` slot interpolated by `str.format`:
`None` renders as the four characters `None`, a string renders as itself. -/
def pyOptStr : Option String → String
  | none => "None"
  | some s => s

/-- Two lowercase hex digits of a byte, as CPython prints in `\xhh` escapes. -/
def hexDigit (n : Nat) : Char :=
  if n < 10 then Char.ofNat (48 + n) else Char.ofNat (87 + n)

/-- CPython `repr` escaping of one character of a `str`, given the quote
character chosen for the whole string: backslash and the quote are
backslash-escaped, newline/carriage-return/tab use their mnemonic escapes,
other control characters (and DEL) use `\xhh`, everything else is printed
as-is.  Faithful for ASCII payloads, which is all the claims exercise. -/
def pyCharEsc (quote : Char) (c : Char) : String :=
  if c = '\\' then "\\\\"
  else if c = quote then "\\" ++ quote.toString
  else if c = '\n' then "\\n"
  else if c = '\r' then "\\r"
  else if c = '\t' then "\\t"
  else if c.toNat < 32 ∨ c.toNat = 127 then
    "\\x" ++ String.mk [hexDigit (c.toNat / 16), hexDigit (c.toNat % 16)]
  else c.toString

/-- CPython `repr` of a `str`: single-quoted, unless the string contains a
single quote and no double quote, in which case it is double-quoted. -/
def pyStrRepr (s : String) : String :=
  let quote : Char :=
    if s.contains '\x27' ∧ ¬ s.contains '"' then '"' else '\x27'
  quote.toString ++ String.join (s.toList.map (pyCharEsc quote)) ++ quote.toString

/-- Body of CPython `repr` of a list: the element reprs separated by
comma-space, written as the loop in CPython's `list_repr` emits them. -/
def pyListStrAux : List String → String
  | [] => ""
  | [x] => pyStrRepr x
  | x :: y :: rest => pyStrRepr x ++ ", " ++ pyListStrAux (y :: rest)

/-- CPython `str()` of a list of strings, as interpolated by `str.format`
for the `copy_options` slot: `[` then the comma-separated element reprs
then `]`. -/
def pyListStr (l : List String) : String :=
  "[" ++ pyListStrAux l ++ "]"

/-- The operator instance after `__init__`: the configuration fields stored
on `self`, plus `credentials` for `self._data_source_hook`, which holds the
`get_credentials()` result resolved during `__init__`. -/
structure S3ToRedshiftTransfer where
  schema : String
  table : String
  data_source : String
  s3bucket_or_dynamodbtable : Option String
  s3_key : Option String
  copy_options : List String
  autocommit : Bool
  operation : String
  credentials : Credentials
deriving Repr, DecidableEq

/-- Constructor `__init__`: stores the configuration and resolves credentials once, by
string dispatch on `data_source`: the object-store hook (`S3Hook`) when it
equals `"s3"`, the key-value hook (`AwsDynamoDBHook`) otherwise.  The hooks
are modelled as call-indexed providers (`Nat → Credentials`) so rotation
between calls is observable; `__init__` performs exactly one resolution,
with index 0, and the returned `Nat` counts the resolutions performed. -/
def initTransfer (s3Provider dynamodbProvider : Nat → Credentials)
    (schema table : String)
    (data_source : String := "s3")
    (s3bucket_or_dynamodbtable : Option String := none)
    (s3_key : Option String := none)
    (copy_options : Option (List String) := none)
    (operation : String := "UPSERT")
    (autocommit : Bool := false) :
    S3ToRedshiftTransfer × Nat :=
  ({ schema := schema
     table := table
     data_source := data_source
     s3bucket_or_dynamodbtable := s3bucket_or_dynamodbtable
     s3_key := s3_key
     copy_options := copy_options.getD []
     autocommit := autocommit
     operation := operation
     credentials :=
       if data_source = "s3" then s3Provider 0 else dynamodbProvider 0 },
   1)

/-- The `copy_query` string built inside `_copy_data`: the triple-quoted
template of the source (20-space indented lines, 16 spaces before the
closing quotes) with the eight slots filled by `str.format`. -/
def S3ToRedshiftTransfer.copyQuery (op : S3ToRedshiftTransfer)
    (credentials : Credentials) (schema table : String) : String :=
  "\n                    COPY " ++ schema ++ "." ++ table ++
  "\n                    FROM '" ++ op.data_source ++ "://" ++
  pyOptStr op.s3bucket_or_dynamodbtable ++ "/" ++ pyOptStr op.s3_key ++
  "'\n                    with credentials\n                    " ++
  "'aws_access_key_id=" ++ credentials.access_key ++
  ";aws_secret_access_key=" ++ credentials.secret_key ++
  "'\n                    " ++ pyListStr op.copy_options ++
  ";\n                "

/-- Entry point `execute(context)`: if `self.operation == "COPY"`, run `_copy_data`
(log, build `copy_query`, submit it via `self._postgres_hook.run` with
`self.autocommit`, log completion); otherwise raise
`AirflowException("Invalid operation; options [COPY, UPSERT]")`.  The
postgres hook is modelled by `driver`, mapping the submitted statement and
autocommit flag to the driver's outcome; a driver error propagates with no
handler in between, aborting before the completion log. -/
def S3ToRedshiftTransfer.execute (op : S3ToRedshiftTransfer)
    (driver : String → Bool → Except String Unit) :
    Except RunError Unit × Trace :=
  if op.operation = "COPY" then
    let q := op.copyQuery op.credentials op.schema op.table
    match driver q op.autocommit with
    | Except.error e =>
        (Except.error (RunError.warehouse e),
         { hookRuns := [(q, op.autocommit)]
           logs := ["Executing COPY command..."] })
    | Except.ok _ =>
        (Except.ok (),
         { hookRuns := [(q, op.autocommit)]
           logs := ["Executing COPY command...", "COPY command complete..."] })
  else
    (Except.error (RunError.airflow "Invalid operation; options [COPY, UPSERT]"),
     { hookRuns := [], logs := [] })

/-- Iterated runs: `n` successive `execute` calls on one operator instance.  `execute`
takes no credential provider: resolution is not in its reach. -/
def executeMany (op : S3ToRedshiftTransfer)
    (driver : String → Bool → Except String Unit) :
    Nat → List (Except RunError Unit × Trace)
  | 0 => []
  | n + 1 => op.execute driver :: executeMany op driver n

/-- Maximal whitespace-free runs of a character list, in order; `cur` holds
the (reversed) run being read. -/
def wsWordsAux (cur : List Char) : List Char → List (List Char)
  | [] => if cur = [] then [] else [cur.reverse]
  | c :: cs =>
    if c.isWhitespace then
      if cur = [] then wsWordsAux [] cs else cur.reverse :: wsWordsAux [] cs
    else wsWordsAux (c :: cur) cs

/-- Whitespace normalisation used to compare statements "up to whitespace":
split on whitespace runs, drop empty fragments, rejoin with single
spaces. -/
def normWs (s : String) : String :=
  String.intercalate " " ((wsWordsAux [] s.toList).map String.mk)

/-- The message authored by the operator's own code for a failed run:
`some m` when the failure is the operator's `AirflowException`, `none`
when the run succeeded or the failure is a propagated driver payload (to
which the operator adds no text of its own). -/
def coreErrorMessage : Except RunError Unit × Trace → Option String
  | (Except.error (RunError.airflow m), _) => some m
  | (Except.error (RunError.warehouse _), _) => none
  | (Except.ok _, _) => none

/-- Everything of `copy_query` before the interpolated `copy_options` slot:
the template's first five lines with the seven other slots filled.  It does
not read `copy_options`. -/
def queryStem (op : S3ToRedshiftTransfer)
    (credentials : Credentials) (schema table : String) : String :=
  "\n                    COPY " ++ schema ++ "." ++ table ++
  "\n                    FROM '" ++ op.data_source ++ "://" ++
  pyOptStr op.s3bucket_or_dynamodbtable ++ "/" ++ pyOptStr op.s3_key ++
  "'\n                    with credentials\n                    " ++
  "'aws_access_key_id=" ++ credentials.access_key ++
  ";aws_secret_access_key=" ++ credentials.secret_key ++
  "'\n                    "

/-- Shared sample providers and drivers used to instantiate theorems on
concrete inputs. -/
def sampleS3Provider : Nat → Credentials := fun _ => ⟨"AKIA...", "SECRET"⟩

/-- Sample key-value provider, distinguishable from `sampleS3Provider`. -/
def sampleDdbProvider : Nat → Credentials := fun _ => ⟨"DDB-ACCESS", "DDB-SECRET"⟩

/-- Driver that accepts every statement. -/
def okDriver : String → Bool → Except String Unit := fun _ _ => Except.ok ()

/-- Driver that rejects every statement with a fixed payload. -/
def failDriver : String → Bool → Except String Unit :=
  fun _ _ => Except.error "permission denied for relation events"

/-- Concrete operator left at the default operation mode. -/
def sampleDefaultOp : S3ToRedshiftTransfer :=
  (initTransfer sampleS3Provider sampleDdbProvider "public" "events" "s3"
    (some "my-bucket") (some "2024/01/events.csv")).1

/-- Concrete operator configured with operation `COPY`. -/
def sampleCopyOp : S3ToRedshiftTransfer :=
  (initTransfer sampleS3Provider sampleDdbProvider "public" "events" "s3"
    (some "my-bucket") (some "2024/01/events.csv") none "COPY").1

/-- Concrete operator configured with the unrecognized operation `FOO`. -/
def sampleFooOp : S3ToRedshiftTransfer :=
  (initTransfer sampleS3Provider sampleDdbProvider "public" "events" "s3"
    (some "my-bucket") (some "2024/01/events.csv") none "FOO").1

theorem intercalate_go_append (s x b : String) (l : List String) :
    String.intercalate.go x s (b :: l) = x ++ s ++ String.intercalate.go b s l := by
  induction l generalizing x b with
  | nil => rfl
  | cons c l ih =>
    show String.intercalate.go (x ++ s ++ b) s (c :: l) = _
    rw [ih, ih b c, ← String.append_assoc, ← String.append_assoc]

theorem pyListStrAux_eq (l : List String) :
    pyListStrAux l = String.intercalate ", " (l.map pyStrRepr) := by
  match l with
  | [] => rfl
  | [x] => rfl
  | x :: y :: rest =>
    have ih := pyListStrAux_eq (y :: rest)
    show pyStrRepr x ++ ", " ++ pyListStrAux (y :: rest) = _
    rw [ih]
    show _ = String.intercalate.go (pyStrRepr x) ", " (pyStrRepr y :: rest.map pyStrRepr)
    rw [intercalate_go_append]
    rfl

/-- C1 (counterexample): the claim as stated fails on the code.  Validating
mode "UPSERT" does not succeed: executing an operator whose operation is
"UPSERT" raises the invalid-operation error instead of accepting the mode;
and for the invalid mode "FOO" the raised message does not contain the
literal invalid value "FOO". -/
theorem operation_validation_counterexample :
    (sampleDefaultOp.execute okDriver).1 =
      Except.error (RunError.airflow "Invalid operation; options [COPY, UPSERT]") ∧
    (sampleFooOp.execute okDriver).1 =
      Except.error (RunError.airflow "Invalid operation; options [COPY, UPSERT]") ∧
    ¬ List.IsInfix "FOO".toList "Invalid operation; options [COPY, UPSERT]".toList := by
  refine ⟨rfl, rfl, ?_⟩
  decide

/-- C1 (amended): the operator accepts exactly the operation "COPY".  The
invalid-operation error — whose fixed message names the accepted options
but never the offending value — is raised precisely when the operation is
any other string, including "UPSERT". -/
theorem operation_validation_amended (op : S3ToRedshiftTransfer)
    (driver : String → Bool → Except String Unit) :
    (op.execute driver).1 =
      Except.error (RunError.airflow "Invalid operation; options [COPY, UPSERT]") ↔
    op.operation ≠ "COPY" := by
  by_cases h : op.operation = "COPY"
  · simp only [S3ToRedshiftTransfer.execute, if_pos h]
    cases driver (op.copyQuery op.credentials op.schema op.table) op.autocommit <;>
      simp [h]
  · simp only [S3ToRedshiftTransfer.execute, if_neg h]
    simp [h]

/-- C2 (counterexample): the claim as stated fails on the code.
Construction with the unrecognized data-source kind "bogus" does not fail
fast: it completes and resolves credentials anyway, against the key-value
(DynamoDB) provider. -/
theorem data_source_validation_counterexample :
    (initTransfer sampleS3Provider sampleDdbProvider "public" "events" "bogus"
        (some "my-bucket") (some "2024/01/events.csv")).1.credentials =
      { access_key := "DDB-ACCESS", secret_key := "DDB-SECRET" } ∧
    (initTransfer sampleS3Provider sampleDdbProvider "public" "events" "bogus"
        (some "my-bucket") (some "2024/01/events.csv")).2 = 1 :=
  ⟨rfl, rfl⟩

/-- C2 (amended): construction never rejects a data-source kind and never
fails fast: it always performs exactly one credential resolution, against
the object-store provider when the kind is "s3" and against the key-value
provider for every other kind value, recognized or not. -/
theorem data_source_dispatch_amended (s3P ddbP : Nat → Credentials)
    (schema table ds : String) (bucket key : Option String)
    (opts : Option (List String)) (operation : String) (ac : Bool) :
    (initTransfer s3P ddbP schema table ds bucket key opts operation ac).1.credentials =
      (if ds = "s3" then s3P 0 else ddbP 0) ∧
    (initTransfer s3P ddbP schema table ds bucket key opts operation ac).2 = 1 :=
  ⟨rfl, rfl⟩

/-- C3: the statement builder emits the option clauses joined in the order
given: the options slot of `copy_query` is the comma-separated
concatenation of the per-option renderings, one per occurrence, in list
order, with no deduplication, reordering, or validation, appended after a
stem that does not read the option list. -/
theorem copy_options_joined_in_order (op : S3ToRedshiftTransfer)
    (credentials : Credentials) (schema table : String) :
    op.copyQuery credentials schema table =
      queryStem op credentials schema table ++
        ("[" ++ String.intercalate ", " (op.copy_options.map pyStrRepr) ++ "]") ++
        ";\n                " := by
  rw [← pyListStrAux_eq]
  rfl

/-- C4: the statement built for schema "public", table "events", kind "s3",
location "my-bucket", key "2024/01/events.csv", access "AKIA...", secret
"SECRET" and an empty option list equals, after whitespace normalisation,
exactly the expected text, with that field order and those literal
tokens. -/
theorem concrete_statement_text :
    normWs (sampleCopyOp.copyQuery sampleCopyOp.credentials
        sampleCopyOp.schema sampleCopyOp.table) =
      "COPY public.events FROM 's3://my-bucket/2024/01/events.csv' with credentials 'aws_access_key_id=AKIA...;aws_secret_access_key=SECRET' [];" := by
  rfl

/-- C5: for every operation mode other than "COPY", `execute` raises the
invalid-operation error and nothing else happens: no statement is built,
the warehouse hook observes zero submissions, and nothing is logged. -/
theorem non_copy_mode_no_execution (op : S3ToRedshiftTransfer)
    (driver : String → Bool → Except String Unit)
    (h : op.operation ≠ "COPY") :
    op.execute driver =
      (Except.error (RunError.airflow "Invalid operation; options [COPY, UPSERT]"),
       { hookRuns := [], logs := [] }) := by
  simp [S3ToRedshiftTransfer.execute, h]

/-- C5 witness: the theorem instantiated at the concrete operator whose
operation is "UPSERT" and the always-accepting driver. -/
theorem non_copy_mode_no_execution_witness :
    sampleDefaultOp.operation ≠ "COPY" ∧
    sampleDefaultOp.execute okDriver =
      (Except.error (RunError.airflow "Invalid operation; options [COPY, UPSERT]"),
       { hookRuns := [], logs := [] }) :=
  ⟨by decide, non_copy_mode_no_execution sampleDefaultOp okDriver (by decide)⟩

theorem executeMany_eq_replicate (op : S3ToRedshiftTransfer)
    (driver : String → Bool → Except String Unit) (n : Nat) :
    executeMany op driver n = List.replicate n (op.execute driver) := by
  induction n with
  | zero => rfl
  | succ n ih => simp [executeMany, ih, List.replicate_succ]

/-- C6: credential resolution happens exactly once, at construction time:
the constructor performs one provider call (call index 0), the pair stored
on the instance is that call's result, and `n` subsequent `execute` calls
are `n` repetitions of one and the same run — `execute` has no access to
any provider, so every run reuses the construction-time credentials. -/
theorem credentials_resolved_once (s3P ddbP : Nat → Credentials)
    (schema table ds : String) (bucket key : Option String)
    (opts : Option (List String)) (operation : String) (ac : Bool)
    (driver : String → Bool → Except String Unit) (n : Nat) :
    (initTransfer s3P ddbP schema table ds bucket key opts operation ac).2 = 1 ∧
    (initTransfer s3P ddbP schema table ds bucket key opts operation ac).1.credentials =
      (if ds = "s3" then s3P 0 else ddbP 0) ∧
    executeMany (initTransfer s3P ddbP schema table ds bucket key opts operation ac).1
        driver n =
      List.replicate n
        ((initTransfer s3P ddbP schema table ds bucket key opts operation ac).1.execute
          driver) :=
  ⟨rfl, rfl, executeMany_eq_replicate _ _ n⟩

/-- C7: when the operation is "COPY" and the warehouse driver rejects the
submitted statement, `execute` fails with the warehouse error wrapping the
driver payload unchanged; the hook was invoked exactly once (no retry), the
failure is the run's result (never suppressed), and the completion log was
never emitted. -/
theorem warehouse_failure_propagated (op : S3ToRedshiftTransfer)
    (driver : String → Bool → Except String Unit) (e : String)
    (hop : op.operation = "COPY")
    (hd : driver (op.copyQuery op.credentials op.schema op.table) op.autocommit =
      Except.error e) :
    op.execute driver =
      (Except.error (RunError.warehouse e),
       { hookRuns := [(op.copyQuery op.credentials op.schema op.table, op.autocommit)]
         logs := ["Executing COPY command..."] }) := by
  simp [S3ToRedshiftTransfer.execute, hop, hd]

/-- C7 witness: the theorem instantiated at the concrete "COPY" operator and
the always-failing driver. -/
theorem warehouse_failure_propagated_witness :
    sampleCopyOp.operation = "COPY" ∧
    failDriver (sampleCopyOp.copyQuery sampleCopyOp.credentials sampleCopyOp.schema
        sampleCopyOp.table) sampleCopyOp.autocommit =
      Except.error "permission denied for relation events" ∧
    sampleCopyOp.execute failDriver =
      (Except.error (RunError.warehouse "permission denied for relation events"),
       { hookRuns := [(sampleCopyOp.copyQuery sampleCopyOp.credentials sampleCopyOp.schema
           sampleCopyOp.table, sampleCopyOp.autocommit)]
         logs := ["Executing COPY command..."] }) :=
  ⟨rfl, rfl,
    warehouse_failure_propagated sampleCopyOp failDriver
      "permission denied for relation events" rfl rfl⟩

/-- C8: the statement builder is pure and deterministic: it is a total
function of the operator's stored fields, the credential pair and the
schema/table arguments alone, so two builds from equal inputs yield
byte-identical statement text; being a plain function into `String`, it
performs no effect and has no failure outcome. -/
theorem statement_builder_deterministic (op1 op2 : S3ToRedshiftTransfer)
    (c1 c2 : Credentials) (s1 s2 t1 t2 : String)
    (hop : op1 = op2) (hc : c1 = c2) (hs : s1 = s2) (ht : t1 = t2) :
    op1.copyQuery c1 s1 t1 = op2.copyQuery c2 s2 t2 := by
  rw [hop, hc, hs, ht]

/-- C8 witness: two builds at identical concrete inputs agree. -/
theorem statement_builder_deterministic_witness :
    sampleCopyOp.copyQuery sampleCopyOp.credentials "public" "events" =
      sampleCopyOp.copyQuery sampleCopyOp.credentials "public" "events" :=
  statement_builder_deterministic sampleCopyOp sampleCopyOp
    sampleCopyOp.credentials sampleCopyOp.credentials
    "public" "public" "events" "events" rfl rfl rfl rfl

/-- C9: the only failure message authored by the operator's own code is the
constant invalid-operation text, emitted exactly when the operation is not
"COPY"; it is determined by the operation field alone, independent of the
credential fields, so no core-produced message contains or varies with the
resolved secret key.  Driver failures propagate as opaque payloads to which
the core adds no message text of its own. -/
theorem core_error_messages_structural (op : S3ToRedshiftTransfer)
    (driver : String → Bool → Except String Unit) :
    coreErrorMessage (op.execute driver) =
      (if op.operation = "COPY" then none
       else some "Invalid operation; options [COPY, UPSERT]") := by
  by_cases h : op.operation = "COPY"
  · rw [if_pos h]
    simp only [S3ToRedshiftTransfer.execute, if_pos h]
    cases driver (op.copyQuery op.credentials op.schema op.table) op.autocommit <;> rfl
  · rw [if_neg h]
    simp [S3ToRedshiftTransfer.execute, h, coreErrorMessage]

/-- C10: an operator constructed with the operation left at its default
never transfers data: the default operation is "UPSERT", and `execute` on
such an instance always raises the invalid-operation error with no
statement built, no hook submission, and no log output. -/
theorem default_operation_never_transfers (s3P ddbP : Nat → Credentials)
    (schema table : String)
    (driver : String → Bool → Except String Unit) :
    (initTransfer s3P ddbP schema table).1.operation = "UPSERT" ∧
    (initTransfer s3P ddbP schema table).1.execute driver =
      (Except.error (RunError.airflow "Invalid operation; options [COPY, UPSERT]"),
       { hookRuns := [], logs := [] }) :=
  ⟨rfl, rfl⟩
